import Mathlib

/-!
Verification development for the chart widget of this repository
(`src/widgets/chart.rs`): the layout algorithm `Chart::layout` and the
rendering pass `Widget::buffer`.

Machine integers: all `u16` quantities are modelled as `Nat` with explicit
wrap-around `% 65536` at each arithmetic operation (`wadd`, `wsub`, `wmul`
below), matching the two's-complement behaviour of release builds; a
wrap-around at any of these operations is an arithmetic overflow/underflow
that panics in debug builds.

Floating point: `f64` sample and bound values are modelled as exact
rationals `ℚ`. Division by zero yields `0` in Lean; in the one reachable
degenerate case (`max == min` bounds) the numerator is exactly `0`, so the
Rust value is `0.0 * w / 0.0 = NaN` and the subsequent `as u16` cast gives
`0` (saturating-cast semantics; undefined behaviour in the Rust of this
code's era), which agrees with the modelled value `0 / 0 = 0`.

The character-cell buffer is an external collaborator (spec §6); rendering
is modelled as the ordered trace of `set_string` / `update_cell` calls the
widget issues, with area-relative coordinates exactly as the source passes
them. The display-width service (spec §6, the `unicode_width` crate) is an
abstract parameter `wd : String → Nat`.
-/

namespace TuiChart

/-- Modelled from the spec: `Rect` (from the repository's `layout.rs`, not
under `src/`) is `{x, y, width, height}` in non-negative (`u16`) cell
coordinates. -/
structure Rect where
  x : Nat
  y : Nat
  width : Nat
  height : Nat
deriving DecidableEq

/-- Constructor mirroring `Rect::new(x, y, width, height)`. -/
def Rect.new (x y width height : Nat) : Rect := ⟨x, y, width, height⟩

/-- Mirrors `Rect::default()`: the all-zero rectangle. -/
def Rect.default : Rect := ⟨0, 0, 0, 0⟩

/-- Modelled from the spec: colors (from the repository's `style.rs`, not
under `src/`); the chart only compares and forwards them, so a plain
enumeration of a few members plus `Reset` suffices. -/
inductive Color where
  | Reset
  | Black
  | Red
  | Green
  | Yellow
  | Blue
  | White
deriving DecidableEq

/-- Wrapping `u16` addition. -/
def wadd (a b : Nat) : Nat := (a + b) % 65536

/-- Wrapping `u16` subtraction (two's complement), for operands `< 65536`. -/
def wsub (a b : Nat) : Nat := (a + 65536 - b) % 65536

/-- Wrapping `u16` multiplication. -/
def wmul (a b : Nat) : Nat := (a * b) % 65536

/-- `Axis` from the source: optional title, title color, `[min, max]`
bounds (as a pair, `f64` modelled by `ℚ`), optional labels, labels color
and line color. -/
structure Axis where
  title : Option String
  title_color : Color
  bounds : ℚ × ℚ
  labels : Option (List String)
  labels_color : Color
  color : Color
deriving DecidableEq

/-- `Axis::default()`. -/
def Axis.default : Axis := ⟨none, Color.Reset, (0, 0), none, Color.Reset, Color.Reset⟩

/-- `Dataset` from the source: `(x, y)` samples and a marker color. -/
structure Dataset where
  data : List (ℚ × ℚ)
  color : Color
deriving DecidableEq

/-- `Chart` from the source. The bordering frame (`block`) is an external
collaborator (spec §6) whose only effect is supplying the inner rectangle;
it is not modelled, and rendering below follows the `block == None` branch
in which the inner rectangle equals the full area (the layout computation
takes `inner` and `outer` as explicit arguments, covering the framed case). -/
structure Chart where
  x_axis : Axis
  y_axis : Axis
  datasets : List Dataset
  bg : Color
deriving DecidableEq

/-- `Chart::default()`. -/
def Chart.default : Chart := ⟨Axis.default, Axis.default, [], Color.Reset⟩

/-- `ChartLayout` from the source. -/
structure ChartLayout where
  legend_x : Option (Nat × Nat)
  legend_y : Option (Nat × Nat)
  label_x : Option Nat
  label_y : Option Nat
  axis_x : Option Nat
  axis_y : Option Nat
  graph_area : Rect
deriving DecidableEq

/-- The fold `labels.iter().fold(0, |acc, l| max(l.width(), acc))` from
`Chart::layout`, over the abstract display-width service `wd`. -/
def maxLabelWidth (wd : String → Nat) (labels : List String) : Nat :=
  labels.foldl (fun acc l => max (wd l) acc) 0

/-- Cursor `x` right after `let mut x = inner.x - outer.x;`. -/
def layoutX0 (inner outer : Rect) : Nat := wsub inner.x outer.x

/-- Cursor `y` right after `let mut y = inner.height - 1 + (inner.y - outer.y);`. -/
def layoutY0 (inner outer : Rect) : Nat :=
  wadd (wsub inner.height 1) (wsub inner.y outer.y)

/-- Cursor `y` after the x-label reservation step of `Chart::layout`. -/
def layoutY1 (c : Chart) (inner outer : Rect) : Nat :=
  if c.x_axis.labels.isSome ∧ 1 < layoutY0 inner outer then
    wsub (layoutY0 inner outer) 1
  else layoutY0 inner outer

/-- Cursor `x` after the y-label reservation step of `Chart::layout`
(the `as u16` cast of the folded width is the truncation `% 65536`). -/
def layoutX1 (wd : String → Nat) (c : Chart) (inner outer : Rect) : Nat :=
  match c.y_axis.labels with
  | some labels =>
    if wadd (layoutX0 inner outer) (maxLabelWidth wd labels % 65536) < inner.width then
      wadd (layoutX0 inner outer) (maxLabelWidth wd labels % 65536)
    else layoutX0 inner outer
  | none => layoutX0 inner outer

/-- Cursor `y` after the x-axis-line reservation step of `Chart::layout`. -/
def layoutY2 (c : Chart) (inner outer : Rect) : Nat :=
  if c.x_axis.labels.isSome ∧ 1 < layoutY1 c inner outer then
    wsub (layoutY1 c inner outer) 1
  else layoutY1 c inner outer

/-- Cursor `x` after the y-axis-line reservation step of `Chart::layout`. -/
def layoutX2 (wd : String → Nat) (c : Chart) (inner outer : Rect) : Nat :=
  if c.y_axis.labels.isSome ∧ wadd (layoutX1 wd c inner outer) 1 < inner.width then
    wadd (layoutX1 wd c inner outer) 1
  else layoutX1 wd c inner outer

/-- The plot rectangle computed at the end of `Chart::layout`:
`Rect::new(outer.x + x, inner.y, inner.width - x, y)` when
`x < inner.width && y > 1`, else the default (empty) rectangle. -/
def layoutGraphArea (wd : String → Nat) (c : Chart) (inner outer : Rect) : Rect :=
  if layoutX2 wd c inner outer < inner.width ∧ 1 < layoutY2 c inner outer then
    Rect.new (wadd outer.x (layoutX2 wd c inner outer)) inner.y
      (wsub inner.width (layoutX2 wd c inner outer)) (layoutY2 c inner outer)
  else Rect.default

/-- `Chart::layout(&self, inner, outer)` from the source, assembled from
the cursor stages above (which mirror its single greedy pass: x labels,
y labels, x axis line, y axis line, plot rectangle, then the two legends
computed from the final cursor and the plot rectangle). -/
def Chart.layout (wd : String → Nat) (c : Chart) (inner outer : Rect) : ChartLayout :=
  let x := layoutX2 wd c inner outer
  let y := layoutY2 c inner outer
  let graph_area := layoutGraphArea wd c inner outer
  let label_x :=
    if c.x_axis.labels.isSome ∧ 1 < layoutY0 inner outer then
      some (layoutY0 inner outer)
    else none
  let label_y :=
    match c.y_axis.labels with
    | some labels =>
      if wadd (layoutX0 inner outer) (maxLabelWidth wd labels % 65536) < inner.width then
        some (layoutX0 inner outer)
      else none
    | none => none
  let axis_x :=
    if c.x_axis.labels.isSome ∧ 1 < layoutY1 c inner outer then
      some (layoutY1 c inner outer)
    else none
  let axis_y :=
    if c.y_axis.labels.isSome ∧ wadd (layoutX1 wd c inner outer) 1 < inner.width then
      some (layoutX1 wd c inner outer)
    else none
  let legend_x :=
    match c.x_axis.title with
    | some t =>
      if wd t % 65536 < graph_area.width ∧ 2 < graph_area.height then
        some (wsub (wadd x graph_area.width) (wd t % 65536), y)
      else none
    | none => none
  let legend_y :=
    match c.y_axis.title with
    | some t =>
      if wadd (wd t % 65536) 1 < graph_area.width ∧ 2 < graph_area.height then
        some (wadd x 1, wsub inner.y outer.y)
      else none
    | none => none
  ⟨legend_x, legend_y, label_x, label_y, axis_x, axis_y, graph_area⟩

/-- Modelled from the spec: the glyph constants of the `symbols` module
(not under `src/`): the horizontal/vertical axis line glyphs, the
bottom-left corner glyph, and the filled-dot data marker. -/
inductive Glyph where
  | horizontal
  | vertical
  | bottomLeft
  | blackCircle
deriving DecidableEq

/-- One call into the external cell-buffer service (spec §6): either
`set_string(x, y, text, fg, bg)` or `update_cell(x, y, glyph, fg, bg)`.
Coordinates are exactly the (area-relative) values the source passes. -/
inductive Write where
  | setString (x y : Nat) (s : String) (fg bg : Color)
  | updateCell (x y : Nat) (g : Glyph) (fg bg : Color)
deriving DecidableEq

/-- Rust `as u16` cast of an `f64` (modelled by `ℚ`): truncate toward zero
and saturate into `[0, 65535]` (`NaN` gives `0`; the only reachable `NaN`
here comes from `0 / 0`, which this `ℚ` model also sends to `0`). -/
def q2u16 (q : ℚ) : Nat := if q < 0 then 0 else min (Int.toNat ⌊q⌋) 65535

/-- The data-to-cell scaling of the data-point pass, shared by both axes:
`(max - v) * n / (max - min)` followed by the `as u16` cast, where `n` is
the plot width (x axis) or height (y axis). -/
def scaleCoord (b0 b1 : ℚ) (n : Nat) (v : ℚ) : Nat :=
  q2u16 ((b1 - v) * (n : ℚ) / (b1 - b0))

/-- The per-sample body of the data-point pass of `Widget::buffer`: skip
the sample when outside either axis's bounds, else one `update_cell` of
the filled dot at the scaled position plus the plot margins. -/
def samplePointWrites (c : Chart) (dcolor : Color) (width height margin_x margin_y : Nat)
    (p : ℚ × ℚ) : List Write :=
  if p.1 < c.x_axis.bounds.1 ∨ c.x_axis.bounds.2 < p.1 ∨
     p.2 < c.y_axis.bounds.1 ∨ c.y_axis.bounds.2 < p.2 then []
  else
    [Write.updateCell (wadd (scaleCoord c.x_axis.bounds.1 c.x_axis.bounds.2 width p.1) margin_x)
      (wadd (scaleCoord c.y_axis.bounds.1 c.y_axis.bounds.2 height p.2) margin_y)
      Glyph.blackCircle dcolor c.bg]

/-- The dataset loop of `Widget::buffer`, in source order. -/
def dataWrites (c : Chart) (width height margin_x margin_y : Nat) : List Write :=
  c.datasets.flatMap (fun ds =>
    ds.data.flatMap (samplePointWrites c ds.color width height margin_x margin_y))

/-- The x-legend pass of `Widget::buffer` (the `unwrap` of the title is
only reachable with the title present; `getD` supplies the unreachable
default). -/
def legendXWrites (c : Chart) (lx : Option (Nat × Nat)) : List Write :=
  match lx with
  | some (x, y) => [Write.setString x y (c.x_axis.title.getD "") c.x_axis.title_color c.bg]
  | none => []

/-- The y-legend pass of `Widget::buffer`. -/
def legendYWrites (c : Chart) (ly : Option (Nat × Nat)) : List Write :=
  match ly with
  | some (x, y) => [Write.setString x y (c.y_axis.title.getD "") c.y_axis.title_color c.bg]
  | none => []

/-- The x-tick-label pass of `Widget::buffer`: gated on the label row
being reserved, the summed (`as u16`-cast) label widths being below the
plot width and more than one (`as u16`-cast count) label; label `i` is
written at `margin_x + i as u16 * (width - 1) / (labels_len - 1) -
label.width() as u16` on the reserved row, each `u16` operation wrapping. -/
def xLabelWrites (wd : String → Nat) (c : Chart) (margin_x width : Nat)
    (lx : Option Nat) : List Write :=
  match lx with
  | none => []
  | some y =>
    match c.x_axis.labels with
    | none => []
    | some labels =>
      if (labels.foldl (fun acc l => wd l + acc) 0) % 65536 < width ∧
         1 < labels.length % 65536 then
        labels.enum.map (fun p =>
          Write.setString
            (wsub (wadd margin_x (wmul (p.1 % 65536) (wsub width 1) / wsub (labels.length % 65536) 1))
              (wd p.2 % 65536))
            y p.2 c.x_axis.labels_color c.bg)
      else []

/-- The y-tick-label pass of `Widget::buffer`: gated on the label column
being reserved and more than one label; the labels are enumerated in
reverse input order and the `i`-th drawn label goes to row
`margin_y + i as u16 * (height - 1) / (labels_len - 1)` in the reserved
column. -/
def yLabelWrites (c : Chart) (margin_y height : Nat)
    (ly : Option Nat) : List Write :=
  match ly with
  | none => []
  | some x =>
    match c.y_axis.labels with
    | none => []
    | some labels =>
      if 1 < labels.length % 65536 then
        labels.reverse.enum.map (fun p =>
          Write.setString x
            (wadd margin_y (wmul (p.1 % 65536) (wsub height 1) / wsub (labels.length % 65536) 1))
            p.2 c.y_axis.labels_color c.bg)
      else []

/-- The x-axis-line pass of `Widget::buffer`: one horizontal glyph per
column of the plot width, on the reserved axis row. -/
def axisXWrites (c : Chart) (margin_x width : Nat) (ax : Option Nat) : List Write :=
  match ax with
  | some y => (List.range width).map (fun x =>
      Write.updateCell (wadd margin_x x) y Glyph.horizontal c.x_axis.color c.bg)
  | none => []

/-- The y-axis-line pass of `Widget::buffer`: one vertical glyph per row
of the plot height, in the reserved axis column. -/
def axisYWrites (c : Chart) (margin_y height : Nat) (ay : Option Nat) : List Write :=
  match ay with
  | some x => (List.range height).map (fun y =>
      Write.updateCell x (wadd margin_y y) Glyph.vertical c.y_axis.color c.bg)
  | none => []

/-- The corner pass of `Widget::buffer`: when both axis lines were
reserved, overwrite their intersection with the bottom-left corner glyph. -/
def cornerWrites (c : Chart) (ax ay : Option Nat) : List Write :=
  match ax, ay with
  | some y, some x => [Write.updateCell x y Glyph.bottomLeft c.x_axis.color c.bg]
  | _, _ => []

/-- `Widget::buffer(&self, area)` from the source as the ordered trace of
cell-buffer calls, following the `block == None` branch (the frame is an
external collaborator), so the inner rectangle equals `area`:
legends, x labels, y labels, axis lines, corner, then data points. -/
def Chart.bufferWrites (wd : String → Nat) (c : Chart) (area : Rect) : List Write :=
  let layout := c.layout wd area area
  let width := layout.graph_area.width
  let height := layout.graph_area.height
  let margin_x := wsub layout.graph_area.x area.x
  let margin_y := wsub layout.graph_area.y area.y
  legendXWrites c layout.legend_x ++
  legendYWrites c layout.legend_y ++
  xLabelWrites wd c margin_x width layout.label_x ++
  yLabelWrites c margin_y height layout.label_y ++
  axisXWrites c margin_x width layout.axis_x ++
  axisYWrites c margin_y height layout.axis_y ++
  cornerWrites c layout.axis_x layout.axis_y ++
  dataWrites c width height margin_x margin_y

/-- The concrete display-width service used for concrete inputs: every
label and title below is plain ASCII, for which the display width is the
character count. -/
def wdLen : String → Nat := String.length

/-- Chart of the round-trip scenario: x axis with bounds `[0, 10]` and the
two width-1 labels `"0"`, `"5"`; y axis identical; no datasets. -/
def c5Chart : Chart :=
  ⟨⟨none, Color.Reset, (0, 10), some ["0", "5"], Color.Reset, Color.Reset⟩,
   ⟨none, Color.Reset, (0, 10), some ["0", "5"], Color.Reset, Color.Reset⟩,
   [], Color.Reset⟩

/-- The 20-by-10 area of the round-trip scenario. -/
def c5Rect : Rect := ⟨0, 0, 20, 10⟩

/-- C5 (counterexample): on inner = outer = `{0,0,20,10}` with two width-1
labels on each axis, the plot rectangle computed by `Chart::layout` has
height 7, not 8 as the claim states (the row between the plot and the
x-axis line is left unused by the code). -/
theorem c5_plot_height_not_eight :
    (Chart.layout wdLen c5Chart c5Rect c5Rect).graph_area.height = 7 ∧
    (Chart.layout wdLen c5Chart c5Rect c5Rect).graph_area.height ≠ 8 := by
  decide

/-- C5 (amended): on inner = outer = `{0,0,20,10}`, x and y axes with
bounds `[0,10]` and two width-1 labels each, `Chart::layout` yields a plot
rectangle of width 18 and height 7 at origin `(2, 0)`, the x-axis line row
at local y = 8, the y-axis line column at local x = 1 (label row 9 and
label column 0, no legends). -/
theorem c5_layout_value :
    Chart.layout wdLen c5Chart c5Rect c5Rect =
      ⟨none, none, some 9, some 0, some 8, some 1, ⟨2, 0, 18, 7⟩⟩ := by
  decide

/-- C1 (counterexample): inner `{0,5,10,3}` is contained in outer
`{0,0,10,10}`, yet for a default chart `Chart::layout` returns the
non-empty plot rectangle `{0,5,10,7}` whose bottom edge `5 + 7 = 12`
exceeds inner's bottom edge `5 + 3 = 8`: the plot rectangle is not
contained in `inner`. -/
theorem c1_layout_escapes_inner :
    (Rect.x ⟨0, 0, 10, 10⟩ ≤ Rect.x ⟨0, 5, 10, 3⟩ ∧
     Rect.y ⟨0, 0, 10, 10⟩ ≤ Rect.y ⟨0, 5, 10, 3⟩ ∧
     Rect.x ⟨0, 5, 10, 3⟩ + Rect.width ⟨0, 5, 10, 3⟩ ≤
       Rect.x ⟨0, 0, 10, 10⟩ + Rect.width ⟨0, 0, 10, 10⟩ ∧
     Rect.y ⟨0, 5, 10, 3⟩ + Rect.height ⟨0, 5, 10, 3⟩ ≤
       Rect.y ⟨0, 0, 10, 10⟩ + Rect.height ⟨0, 0, 10, 10⟩) ∧
    (Chart.layout wdLen Chart.default ⟨0, 5, 10, 3⟩ ⟨0, 0, 10, 10⟩).graph_area =
      ⟨0, 5, 10, 7⟩ ∧
    ¬ ((Chart.layout wdLen Chart.default ⟨0, 5, 10, 3⟩ ⟨0, 0, 10, 10⟩).graph_area.y +
        (Chart.layout wdLen Chart.default ⟨0, 5, 10, 3⟩ ⟨0, 0, 10, 10⟩).graph_area.height ≤
        Rect.y ⟨0, 5, 10, 3⟩ + Rect.height ⟨0, 5, 10, 3⟩) := by
  decide

/-- Chart for the zero-height-area scenario: both axes with the
non-degenerate bounds `[0, 1]`, no labels, one dataset holding the single
in-bounds sample `(1, 1)`. -/
def c2Chart : Chart :=
  ⟨⟨none, Color.Reset, (0, 1), none, Color.Reset, Color.Reset⟩,
   ⟨none, Color.Reset, (0, 1), none, Color.Reset, Color.Reset⟩,
   [⟨[(1, 1)], Color.Red⟩], Color.Reset⟩

/-- C2: rendering `c2Chart` into the zero-height area `{0,0,10,0}` does
not degrade to drawing nothing: the `u16` computation
`inner.height - 1` underflows (a panic in debug builds), the wrapped
cursor makes the "empty" plot rectangle come out with height 65535, and
the data sample is rasterized (an `update_cell` of the dot glyph at cell
`(0, 0)` is issued), contradicting the claim that a zero-height inner
rectangle yields no underflow and no data points. -/
theorem c2_zero_height_underflow_draws_point :
    (Chart.layout wdLen c2Chart ⟨0, 0, 10, 0⟩ ⟨0, 0, 10, 0⟩).graph_area.height = 65535 ∧
    Chart.bufferWrites wdLen c2Chart ⟨0, 0, 10, 0⟩ =
      [Write.updateCell 0 0 Glyph.blackCircle Color.Red Color.Reset] := by
  constructor
  · decide
  · norm_num [Chart.bufferWrites, Chart.layout, layoutGraphArea, layoutX2, layoutX1, layoutX0,
      layoutY2, layoutY1, layoutY0, maxLabelWidth, wadd, wsub, wmul, legendXWrites, legendYWrites,
      xLabelWrites, yLabelWrites, axisXWrites, axisYWrites, cornerWrites, dataWrites,
      samplePointWrites, scaleCoord, q2u16, Rect.new, Rect.default, Axis.default, c2Chart]

/-- Chart for the degenerate-bounds scenario: both axes keep the default
bounds `[0, 0]` (`max == min`), one dataset holding the single sample
`(0, 0)`, which lies on both degenerate bounds. -/
def c3Chart : Chart := ⟨Axis.default, Axis.default, [⟨[(0, 0)], Color.Red⟩], Color.Reset⟩

/-- C3: with `max == min` bounds on both axes the sample `(0, 0)` is NOT
dropped: the scaling computes `0 * extent / 0` (`NaN` in `f64`, whose
`as u16` cast gives `0`, and was undefined behaviour in the Rust of this
code's era; `0` in this exact-rational model) and an `update_cell` of the
dot glyph is issued at cell `(0, 0)`, contradicting the claim that no
data-point cell write occurs. -/
theorem c3_degenerate_bounds_point_drawn :
    Chart.bufferWrites wdLen c3Chart ⟨0, 0, 10, 10⟩ =
      [Write.updateCell 0 0 Glyph.blackCircle Color.Red Color.Reset] ∧
    Chart.bufferWrites wdLen c3Chart ⟨0, 0, 10, 10⟩ ≠ [] := by
  constructor
  · norm_num [Chart.bufferWrites, Chart.layout, layoutGraphArea, layoutX2, layoutX1, layoutX0,
      layoutY2, layoutY1, layoutY0, maxLabelWidth, wadd, wsub, wmul, legendXWrites, legendYWrites,
      xLabelWrites, yLabelWrites, axisXWrites, axisYWrites, cornerWrites, dataWrites,
      samplePointWrites, scaleCoord, q2u16, Rect.new, Rect.default, Axis.default, c3Chart]
  · norm_num [Chart.bufferWrites, Chart.layout, layoutGraphArea, layoutX2, layoutX1, layoutX0,
      layoutY2, layoutY1, layoutY0, maxLabelWidth, wadd, wsub, wmul, legendXWrites, legendYWrites,
      xLabelWrites, yLabelWrites, axisXWrites, axisYWrites, cornerWrites, dataWrites,
      samplePointWrites, scaleCoord, q2u16, Rect.new, Rect.default, Axis.default, c3Chart]

/-- Chart for the monotonicity counterexample: both axes with bounds
`[0, 10]`, one dataset with the two in-bounds samples `(0, 5)` and
`(10, 5)` that differ only in raw x. -/
def c4Chart : Chart :=
  ⟨⟨none, Color.Reset, (0, 10), none, Color.Reset, Color.Reset⟩,
   ⟨none, Color.Reset, (0, 10), none, Color.Reset, Color.Reset⟩,
   [⟨[(0, 5), (10, 5)], Color.Red⟩], Color.Reset⟩

/-- C4 (counterexample): for two in-bounds samples differing only in raw
x, raw x increasing from 0 to 10, the rendered cell column DECREASES from
10 to 0 (the code maps a sample to column `(max - x) * width / range`, so
larger raw x lands further left), refuting the claim that the mapped cell
column does not decrease as raw x increases. -/
theorem c4_column_decreases_as_x_increases :
    Chart.bufferWrites wdLen c4Chart ⟨0, 0, 10, 10⟩ =
      [Write.updateCell 10 4 Glyph.blackCircle Color.Red Color.Reset,
       Write.updateCell 0 4 Glyph.blackCircle Color.Red Color.Reset] ∧
    (0 : ℚ) < 10 ∧
    scaleCoord 0 10 10 (10 : ℚ) < scaleCoord 0 10 10 (0 : ℚ) := by
  refine ⟨?_, by norm_num, by norm_num [scaleCoord, q2u16]⟩
  norm_num [Chart.bufferWrites, Chart.layout, layoutGraphArea, layoutX2, layoutX1, layoutX0,
    layoutY2, layoutY1, layoutY0, maxLabelWidth, wadd, wsub, wmul, legendXWrites, legendYWrites,
    xLabelWrites, yLabelWrites, axisXWrites, axisYWrites, cornerWrites, dataWrites,
    samplePointWrites, scaleCoord, q2u16, Rect.new, Rect.default, Axis.default, c4Chart,
    Int.toNat]

/-- Chart for the x-legend scenario: the round-trip chart plus the
width-1 x-axis title `"T"`. -/
def c6Chart : Chart :=
  ⟨⟨some "T", Color.Reset, (0, 10), some ["0", "5"], Color.Reset, Color.Reset⟩,
   ⟨none, Color.Reset, (0, 10), some ["0", "5"], Color.Reset, Color.Reset⟩,
   [], Color.Reset⟩

/-- C6 (counterexample): with the x-axis line reserved at local row 8, the
x legend is placed at local row 7 — not at the x-axis-line row as the
claim states (the cursor has already moved one row above the line when
the legend position is recorded). -/
theorem c6_legend_row_not_axis_row :
    (Chart.layout wdLen c6Chart c5Rect c5Rect).axis_x = some 8 ∧
    (Chart.layout wdLen c6Chart c5Rect c5Rect).legend_x = some (19, 7) ∧
    (7 : Nat) ≠ 8 := by
  decide

/-- The saturating cast is monotone. -/
theorem q2u16_mono {q q' : ℚ} (h : q ≤ q') : q2u16 q ≤ q2u16 q' := by
  unfold q2u16
  by_cases h1 : q < 0
  · rw [if_pos h1]
    exact Nat.zero_le _
  · have h2 : ¬ q' < 0 := fun hq => h1 (lt_of_le_of_lt h hq)
    rw [if_neg h1, if_neg h2]
    exact min_le_min (Int.toNat_le_toNat (Int.floor_le_floor h)) (le_refl 65535)

/-- C4 (amended): the data-to-cell scaling used for both axes is
antitone in the raw value: for a fixed axis range with `max > min` and
in-bounds raw values `v1 ≤ v2`, the mapped cell offset of `v2` is at most
that of `v1` (the mapped cell column does not increase as raw x increases,
and the mapped cell row does not increase as raw y increases, both using
the shared `(max - v) * extent / (max - min)` formula). -/
theorem c4_scale_antitone (b0 b1 : ℚ) (n : Nat) (v1 v2 : ℚ)
    (hb : b0 < b1) (hv1 : b0 ≤ v1) (h12 : v1 ≤ v2) (hv2 : v2 ≤ b1) :
    scaleCoord b0 b1 n v2 ≤ scaleCoord b0 b1 n v1 := by
  unfold scaleCoord
  apply q2u16_mono
  have hd : (0 : ℚ) < b1 - b0 := sub_pos.mpr hb
  have hnum : (b1 - v2) * (n : ℚ) ≤ (b1 - v1) * (n : ℚ) :=
    mul_le_mul_of_nonneg_right (sub_le_sub_left h12 b1) (Nat.cast_nonneg n)
  exact div_le_div_of_nonneg_right hnum hd.le

/-- C4 (witness): instance of the antitone scaling at bounds `[0,10]`,
extent 10, raw values 3 and 7. -/
theorem c4_scale_antitone_witness :
    scaleCoord 0 10 10 (7 : ℚ) ≤ scaleCoord 0 10 10 (3 : ℚ) :=
  c4_scale_antitone 0 10 10 3 7 (by norm_num) (by norm_num) (by norm_num) (by norm_num)

/-- C7: the data-point pass skips a sample exactly when it lies strictly
outside either axis's `[min, max]` bounds: outside, no cell write is
issued for it; inside or exactly on a bound, exactly one `update_cell` of
the dot glyph is issued for it. -/
theorem c7_bounds_filter (c : Chart) (dcolor : Color) (width height margin_x margin_y : Nat)
    (p : ℚ × ℚ) :
    ((p.1 < c.x_axis.bounds.1 ∨ c.x_axis.bounds.2 < p.1 ∨
      p.2 < c.y_axis.bounds.1 ∨ c.y_axis.bounds.2 < p.2) →
      samplePointWrites c dcolor width height margin_x margin_y p = []) ∧
    ((c.x_axis.bounds.1 ≤ p.1 ∧ p.1 ≤ c.x_axis.bounds.2 ∧
      c.y_axis.bounds.1 ≤ p.2 ∧ p.2 ≤ c.y_axis.bounds.2) →
      samplePointWrites c dcolor width height margin_x margin_y p =
        [Write.updateCell (wadd (scaleCoord c.x_axis.bounds.1 c.x_axis.bounds.2 width p.1) margin_x)
          (wadd (scaleCoord c.y_axis.bounds.1 c.y_axis.bounds.2 height p.2) margin_y)
          Glyph.blackCircle dcolor c.bg]) := by
  constructor
  · intro h
    rw [samplePointWrites, if_pos h]
  · intro h
    rw [samplePointWrites, if_neg]
    push_neg
    exact ⟨h.1, h.2.1, h.2.2.1, h.2.2.2⟩

/-- C7 (witness): with bounds `[0,10]` on both axes, the sample `(11, 5)`
(raw x above the maximum) produces no write, while the boundary sample
`(10, 5)` (raw x exactly on the maximum) produces its cell write. -/
theorem c7_bounds_filter_witness :
    samplePointWrites c4Chart Color.Red 10 9 0 0 ((11 : ℚ), (5 : ℚ)) = [] ∧
    samplePointWrites c4Chart Color.Red 10 9 0 0 ((10 : ℚ), (5 : ℚ)) =
      [Write.updateCell (wadd (scaleCoord 0 10 10 10) 0) (wadd (scaleCoord 0 10 9 5) 0)
        Glyph.blackCircle Color.Red Color.Reset] :=
  ⟨(c7_bounds_filter c4Chart Color.Red 10 9 0 0 (11, 5)).1 (by norm_num [c4Chart]),
   (c7_bounds_filter c4Chart Color.Red 10 9 0 0 (10, 5)).2 (by norm_num [c4Chart])⟩

/-- C10: the `ChartLayout` computed by `Chart::layout` depends only on the
inner and outer rectangles, the two axes' label lists and their title
strings: two charts agreeing on those (but differing arbitrarily in
datasets, bounds, any of the colors or the background) get identical
layouts. -/
theorem c10_layout_depends_only_on_labels_titles (wd : String → Nat) (c1 c2 : Chart)
    (inner outer : Rect)
    (hxl : c1.x_axis.labels = c2.x_axis.labels)
    (hyl : c1.y_axis.labels = c2.y_axis.labels)
    (hxt : c1.x_axis.title = c2.x_axis.title)
    (hyt : c1.y_axis.title = c2.y_axis.title) :
    Chart.layout wd c1 inner outer = Chart.layout wd c2 inner outer := by
  simp only [Chart.layout, layoutGraphArea, layoutX2, layoutX1, layoutX0, layoutY2, layoutY1,
    layoutY0, hxl, hyl, hxt, hyt]

/-- C10 (witness): two concrete charts sharing labels and titles but
differing in bounds, datasets, label/line/title colors and background get
the same layout. -/
theorem c10_layout_depends_only_on_labels_titles_witness :
    Chart.layout wdLen
      ⟨⟨some "T", Color.Red, (0, 10), some ["0", "5"], Color.Red, Color.Red⟩,
       ⟨none, Color.Red, (3, 4), some ["1"], Color.Red, Color.Red⟩,
       [⟨[(1, 2)], Color.Red⟩], Color.Red⟩ ⟨0, 0, 20, 10⟩ ⟨0, 0, 20, 10⟩ =
    Chart.layout wdLen
      ⟨⟨some "T", Color.Blue, (5, 6), some ["0", "5"], Color.Blue, Color.Blue⟩,
       ⟨none, Color.Blue, (7, 8), some ["1"], Color.Blue, Color.Blue⟩,
       [], Color.White⟩ ⟨0, 0, 20, 10⟩ ⟨0, 0, 20, 10⟩ :=
  c10_layout_depends_only_on_labels_titles wdLen _ _ _ _ rfl rfl rfl rfl

/-- C6 (amended): the x-axis legend is placed if and only if the x-axis
has a title whose (`as u16`-cast) display width is strictly below the plot
rectangle's width and the plot rectangle's height exceeds 2; when placed
it is written right-aligned, at local column `x + plot.width - title_width`
(for the final cursor `x`), but on the local row equal to the plot
rectangle's HEIGHT — which is the row one above the reserved x-axis-line
row whenever that line was reserved, not the axis-line row itself. -/
theorem c6_legend_x_spec (wd : String → Nat) (c : Chart) (inner outer : Rect) :
    ((Chart.layout wd c inner outer).legend_x.isSome ↔
      ∃ t, c.x_axis.title = some t ∧
        wd t % 65536 < (Chart.layout wd c inner outer).graph_area.width ∧
        2 < (Chart.layout wd c inner outer).graph_area.height) ∧
    (∀ col row, (Chart.layout wd c inner outer).legend_x = some (col, row) →
      (∃ t, c.x_axis.title = some t ∧
        col = wsub (wadd (layoutX2 wd c inner outer)
          (Chart.layout wd c inner outer).graph_area.width) (wd t % 65536)) ∧
      row = (Chart.layout wd c inner outer).graph_area.height ∧
      (∀ r, (Chart.layout wd c inner outer).axis_x = some r → row = wsub r 1)) := by
  have hga : (Chart.layout wd c inner outer).graph_area = layoutGraphArea wd c inner outer := rfl
  cases ht : c.x_axis.title with
  | none =>
    constructor
    · simp [Chart.layout, ht]
    · intro col row heq
      simp [Chart.layout, ht] at heq
  | some t =>
    by_cases hc : wd t % 65536 < (layoutGraphArea wd c inner outer).width ∧
        2 < (layoutGraphArea wd c inner outer).height
    · constructor
      · simp only [Chart.layout, ht, hga, if_pos hc]
        simp only [Option.isSome_some, true_iff]
        exact ⟨t, rfl, hc⟩
      · intro col row heq
        simp only [Chart.layout, if_pos hc, ht] at heq
        have hcol : col = wsub (wadd (layoutX2 wd c inner outer)
            (layoutGraphArea wd c inner outer).width) (wd t % 65536) :=
          (congrArg Prod.fst (Option.some.inj heq)).symm
        have hrow : row = layoutY2 c inner outer :=
          (congrArg Prod.snd (Option.some.inj heq)).symm
        have hwpos : 0 < (layoutGraphArea wd c inner outer).width :=
          lt_of_le_of_lt (Nat.zero_le _) hc.1
        have hgbranch : layoutX2 wd c inner outer < inner.width ∧
            1 < layoutY2 c inner outer := by
          by_contra hg
          rw [layoutGraphArea, if_neg hg] at hwpos
          exact absurd hwpos (by simp [Rect.default])
        have hheight : (layoutGraphArea wd c inner outer).height = layoutY2 c inner outer := by
          rw [layoutGraphArea, if_pos hgbranch]
          rfl
        refine ⟨⟨t, rfl, hcol⟩, ?_, ?_⟩
        · rw [hga, hheight, hrow]
        · intro r hr
          simp only [Chart.layout] at hr
          by_cases hax : c.x_axis.labels.isSome ∧ 1 < layoutY1 c inner outer
          · rw [if_pos hax] at hr
            have hry : r = layoutY1 c inner outer := (Option.some.inj hr).symm
            rw [hrow, layoutY2, if_pos hax, hry]
          · rw [if_neg hax] at hr
            exact absurd hr (by simp)
    · constructor
      · simp only [Chart.layout, ht, hga, if_neg hc, Option.isSome_none, Bool.false_eq_true,
          false_iff]
        rintro ⟨u, hu, hrest⟩
        cases Option.some.inj hu
        exact hc hrest
      · intro col row heq
        simp only [Chart.layout, ht, if_neg hc] at heq
        exact Option.noConfusion heq

/-- C6 (witness): the legend characterization instantiated on the
round-trip chart with x title `"T"` in the 20-by-10 area, where the
legend is placed at `(19, 7)` with the axis line row at 8. -/
theorem c6_legend_x_spec_witness :
    ((Chart.layout wdLen c6Chart c5Rect c5Rect).legend_x.isSome ↔
      ∃ t, c6Chart.x_axis.title = some t ∧
        wdLen t % 65536 < (Chart.layout wdLen c6Chart c5Rect c5Rect).graph_area.width ∧
        2 < (Chart.layout wdLen c6Chart c5Rect c5Rect).graph_area.height) ∧
    (∀ col row, (Chart.layout wdLen c6Chart c5Rect c5Rect).legend_x = some (col, row) →
      (∃ t, c6Chart.x_axis.title = some t ∧
        col = wsub (wadd (layoutX2 wdLen c6Chart c5Rect c5Rect)
          (Chart.layout wdLen c6Chart c5Rect c5Rect).graph_area.width) (wdLen t % 65536)) ∧
      row = (Chart.layout wdLen c6Chart c5Rect c5Rect).graph_area.height ∧
      (∀ r, (Chart.layout wdLen c6Chart c5Rect c5Rect).axis_x = some r → row = wsub r 1)) :=
  c6_legend_x_spec wdLen c6Chart c5Rect c5Rect

/-- C8: x tick labels are drawn iff the x-label row was reserved, the
summed label display widths are strictly below the plot width and there
are at least 2 labels; then label `i` of `n` is written on the reserved
row starting at local column
`margin_x + i * (width - 1) / (n - 1) - label_width` (floor division,
`u16` wrap on the outer sum and difference); with no reserved row, an
insufficient total width, or fewer than 2 labels, no x tick label is
drawn. Stated under side conditions keeping the `as u16` casts and the
`u16` multiplication below 65536 so they read as plain integers. -/
theorem c8_x_label_writes (wd : String → Nat) (c : Chart) (margin_x width y : Nat)
    (labels : List String) (hl : c.x_axis.labels = some labels)
    (hlen : labels.length < 65536)
    (hsum : labels.foldl (fun acc l => wd l + acc) 0 < 65536)
    (hmul : (labels.length - 1) * (width - 1) < 65536)
    (hwidth : width < 65536) :
    xLabelWrites wd c margin_x width none = [] ∧
    (¬ (labels.foldl (fun acc l => wd l + acc) 0 < width ∧ 2 ≤ labels.length) →
      xLabelWrites wd c margin_x width (some y) = []) ∧
    ((labels.foldl (fun acc l => wd l + acc) 0 < width ∧ 2 ≤ labels.length) →
      (xLabelWrites wd c margin_x width (some y)).length = labels.length ∧
      ∀ i, i < labels.length →
        (xLabelWrites wd c margin_x width (some y))[i]? =
          (labels[i]?).map (fun l =>
            Write.setString
              (wsub (wadd margin_x (i * (width - 1) / (labels.length - 1))) (wd l % 65536))
              y l c.x_axis.labels_color c.bg)) := by
  refine ⟨rfl, ?_, ?_⟩
  · intro hnot
    simp only [xLabelWrites, hl]
    rw [if_neg]
    intro hcondm
    rw [Nat.mod_eq_of_lt hsum, Nat.mod_eq_of_lt hlen] at hcondm
    exact hnot ⟨hcondm.1, hcondm.2⟩
  · intro hcond
    have hcondm : (labels.foldl (fun acc l => wd l + acc) 0) % 65536 < width ∧
        1 < labels.length % 65536 := by
      rw [Nat.mod_eq_of_lt hsum, Nat.mod_eq_of_lt hlen]
      exact ⟨hcond.1, hcond.2⟩
    have hw1 : 1 ≤ width := lt_of_le_of_lt (Nat.zero_le _) hcond.1
    constructor
    · simp only [xLabelWrites, hl, if_pos hcondm, List.length_map, List.enum_length]
    · intro i hi
      simp only [xLabelWrites, hl, if_pos hcondm, List.getElem?_map, List.getElem?_enum]
      cases hgl : labels[i]? with
      | none => rfl
      | some l =>
        have e1 : i % 65536 = i := Nat.mod_eq_of_lt (lt_trans hi hlen)
        have e2 : wsub width 1 = width - 1 := by unfold wsub; omega
        have e3 : wsub (labels.length % 65536) 1 = labels.length - 1 := by
          unfold wsub
          rw [Nat.mod_eq_of_lt hlen]
          omega
        have e4 : wmul i (width - 1) = i * (width - 1) := by
          unfold wmul
          apply Nat.mod_eq_of_lt
          exact lt_of_le_of_lt (Nat.mul_le_mul_right _ (by omega)) hmul
        simp [e1, e2, e3, e4]

/-- Chart holding the two x labels `"ab"` and `"c"` (display widths 2 and
1) used to instantiate the x-label characterization. -/
def c8Chart : Chart :=
  ⟨⟨none, Color.Reset, (0, 10), some ["ab", "c"], Color.Reset, Color.Reset⟩,
   Axis.default, [], Color.Reset⟩

/-- C8 (witness): with labels `"ab"`, `"c"`, margin 2, plot width 10 and
reserved row 9, both labels are drawn: `"ab"` right-anchored at column 0
and `"c"` right-anchored at column 10. -/
theorem c8_x_label_writes_witness :
    (xLabelWrites wdLen c8Chart 2 10 (some 9)).length = 2 ∧
    (xLabelWrites wdLen c8Chart 2 10 (some 9))[0]? =
      some (Write.setString 0 9 "ab" Color.Reset Color.Reset) ∧
    (xLabelWrites wdLen c8Chart 2 10 (some 9))[1]? =
      some (Write.setString 10 9 "c" Color.Reset Color.Reset) := by
  have h := (c8_x_label_writes wdLen c8Chart 2 10 9 ["ab", "c"] rfl (by decide) (by decide)
    (by decide) (by decide)).2.2 (by decide)
  refine ⟨h.1, ?_, ?_⟩
  · rw [h.2 0 (by decide)]
    decide
  · rw [h.2 1 (by decide)]
    decide

/-- C9: y tick labels are drawn only when the y-label column was reserved
and there are at least 2 labels; they are sourced in reverse input order
(the last input label renders topmost), the `i`-th drawn label going to
row `margin_y + i * (height - 1) / (n - 1)` (floor division) in the
reserved column. Stated under side conditions keeping the `as u16` casts
and the `u16` products/sums below 65536 so they read as plain integers. -/
theorem c9_y_label_writes (c : Chart) (margin_y height x : Nat)
    (labels : List String) (hl : c.y_axis.labels = some labels)
    (hlen : labels.length < 65536)
    (hmul : (labels.length - 1) * (height - 1) < 65536)
    (hheight : 1 ≤ height) (hheightw : height < 65536)
    (hmarg : margin_y + height ≤ 65536) :
    yLabelWrites c margin_y height none = [] ∧
    (labels.length < 2 → yLabelWrites c margin_y height (some x) = []) ∧
    (2 ≤ labels.length →
      (yLabelWrites c margin_y height (some x)).length = labels.length ∧
      ∀ i, i < labels.length →
        (yLabelWrites c margin_y height (some x))[i]? =
          (labels.reverse[i]?).map (fun l =>
            Write.setString x (margin_y + i * (height - 1) / (labels.length - 1))
              l c.y_axis.labels_color c.bg)) := by
  refine ⟨rfl, ?_, ?_⟩
  · intro hlt
    simp only [yLabelWrites, hl]
    rw [if_neg]
    rw [Nat.mod_eq_of_lt hlen]
    omega
  · intro hge
    have hcondm : 1 < labels.length % 65536 := by
      rw [Nat.mod_eq_of_lt hlen]
      omega
    constructor
    · simp only [yLabelWrites, hl, if_pos hcondm, List.length_map, List.enum_length,
        List.length_reverse]
    · intro i hi
      simp only [yLabelWrites, hl, if_pos hcondm, List.getElem?_map, List.getElem?_enum]
      cases hgl : labels.reverse[i]? with
      | none => rfl
      | some l =>
        have e1 : i % 65536 = i := Nat.mod_eq_of_lt (lt_trans hi hlen)
        have e2 : wsub height 1 = height - 1 := by unfold wsub; omega
        have e3 : wsub (labels.length % 65536) 1 = labels.length - 1 := by
          unfold wsub
          rw [Nat.mod_eq_of_lt hlen]
          omega
        have e4 : wmul i (height - 1) = i * (height - 1) := by
          unfold wmul
          apply Nat.mod_eq_of_lt
          exact lt_of_le_of_lt (Nat.mul_le_mul_right _ (by omega)) hmul
        have hq : i * (height - 1) / (labels.length - 1) ≤ height - 1 := by
          have h1 : i * (height - 1) ≤ (labels.length - 1) * (height - 1) :=
            Nat.mul_le_mul_right _ (by omega)
          have h2 : (labels.length - 1) * (height - 1) / (labels.length - 1) = height - 1 :=
            Nat.mul_div_cancel_left _ (by omega)
          exact le_trans (Nat.div_le_div_right h1) (le_of_eq h2)
        have e5 : wadd margin_y (i * (height - 1) / (labels.length - 1)) =
            margin_y + i * (height - 1) / (labels.length - 1) := by
          unfold wadd
          apply Nat.mod_eq_of_lt
          omega
        simp [e1, e2, e3, e4, e5]

/-- Chart holding the two y labels `"0"` and `"5"` used to instantiate
the y-label characterization. -/
def c9Chart : Chart :=
  ⟨Axis.default,
   ⟨none, Color.Reset, (0, 10), some ["0", "5"], Color.Reset, Color.Reset⟩,
   [], Color.Reset⟩

/-- C9 (witness): with labels `"0"`, `"5"`, margin 0, plot height 7 and
reserved column 0, the last input label `"5"` is drawn at the top row 0
and the first input label `"0"` at row 6. -/
theorem c9_y_label_writes_witness :
    (yLabelWrites c9Chart 0 7 (some 0)).length = 2 ∧
    (yLabelWrites c9Chart 0 7 (some 0))[0]? =
      some (Write.setString 0 0 "5" Color.Reset Color.Reset) ∧
    (yLabelWrites c9Chart 0 7 (some 0))[1]? =
      some (Write.setString 0 6 "0" Color.Reset Color.Reset) := by
  have h := (c9_y_label_writes c9Chart 0 7 0 ["0", "5"] rfl (by decide) (by decide)
    (by decide) (by decide) (by decide)).2.2 (by decide)
  refine ⟨h.1, ?_, ?_⟩
  · rw [h.2 0 (by decide)]
    decide
  · rw [h.2 1 (by decide)]
    decide

/-- C1 (amended): for inner contained in outer with a non-degenerate
inner height, a vertical frame offset of at most one row
(`inner.y ≤ outer.y + 1`, the only offsets the enclosing widget produces),
coordinates fitting the `u16` range and the y-label width reservation not
overflowing `u16`, the non-empty plot rectangle computed by
`Chart::layout` is contained in `inner`: its origin is at or right
of/below inner's origin and its right and bottom edges do not exceed
inner's. Without `inner.y ≤ outer.y + 1` the bottom edge can escape
(see the counterexample), and a zero inner height underflows. -/
theorem c1_graph_area_contained (wd : String → Nat) (c : Chart) (inner outer : Rect)
    (h1 : outer.x ≤ inner.x) (h2 : outer.y ≤ inner.y)
    (h3 : inner.x + inner.width ≤ outer.x + outer.width)
    (h4 : inner.y + inner.height ≤ outer.y + outer.height)
    (h5 : outer.x + outer.width ≤ 65535) (h6 : outer.y + outer.height ≤ 65535)
    (h7 : 1 ≤ inner.height) (h8 : inner.y ≤ outer.y + 1)
    (h9 : ∀ ls, c.y_axis.labels = some ls →
        layoutX0 inner outer + maxLabelWidth wd ls % 65536 < 65536) :
    (Chart.layout wd c inner outer).graph_area.width ≠ 0 →
      inner.x ≤ (Chart.layout wd c inner outer).graph_area.x ∧
      (Chart.layout wd c inner outer).graph_area.x +
        (Chart.layout wd c inner outer).graph_area.width ≤ inner.x + inner.width ∧
      (Chart.layout wd c inner outer).graph_area.y = inner.y ∧
      (Chart.layout wd c inner outer).graph_area.y +
        (Chart.layout wd c inner outer).graph_area.height ≤ inner.y + inner.height := by
  intro hw
  have hga : (Chart.layout wd c inner outer).graph_area = layoutGraphArea wd c inner outer := rfl
  rw [hga] at hw ⊢
  have hwle : inner.width ≤ 65535 := by omega
  have hxle : inner.x ≤ 65535 := by omega
  have hhle : inner.height ≤ 65535 := by omega
  have hx0 : layoutX0 inner outer = inner.x - outer.x := by
    unfold layoutX0 wsub
    omega
  have hy0 : layoutY0 inner outer = inner.height - 1 + (inner.y - outer.y) := by
    unfold layoutY0 wsub wadd
    omega
  have hy0le : layoutY0 inner outer ≤ inner.height := by omega
  have hy1 : layoutY1 c inner outer ≤ layoutY0 inner outer := by
    unfold layoutY1 wsub
    split_ifs with h
    · omega
    · omega
  have hy2 : layoutY2 c inner outer ≤ layoutY1 c inner outer := by
    unfold layoutY2 wsub
    split_ifs with h
    · omega
    · omega
  have hx1 : layoutX0 inner outer ≤ layoutX1 wd c inner outer ∧
      (layoutX1 wd c inner outer < inner.width ∨
       layoutX1 wd c inner outer = layoutX0 inner outer) := by
    unfold layoutX1
    cases hyl : c.y_axis.labels with
    | none => exact ⟨le_refl _, Or.inr rfl⟩
    | some ls =>
      have h9l := h9 ls hyl
      simp only []
      unfold wadd
      split_ifs with h
      · omega
      · omega
  have hx2 : layoutX1 wd c inner outer ≤ layoutX2 wd c inner outer ∧
      (layoutX2 wd c inner outer < inner.width ∨
       layoutX2 wd c inner outer = layoutX1 wd c inner outer) := by
    unfold layoutX2
    unfold wadd
    split_ifs with h
    · omega
    · omega
  unfold layoutGraphArea at hw ⊢
  split_ifs at hw ⊢ with hg
  · simp [Rect.new] at hw ⊢
    unfold wadd wsub
    omega
  · simp [Rect.default] at hw

/-- C1 (witness): the containment instantiated for a default chart on the
framed pair inner `{1,1,18,8}`, outer `{0,0,20,10}`, where the plot
rectangle is `{1,1,17,8}`. -/
theorem c1_graph_area_contained_witness :
    (1 : Nat) ≤ (Chart.layout wdLen Chart.default ⟨1, 1, 18, 8⟩ ⟨0, 0, 20, 10⟩).graph_area.x ∧
    (Chart.layout wdLen Chart.default ⟨1, 1, 18, 8⟩ ⟨0, 0, 20, 10⟩).graph_area.x +
      (Chart.layout wdLen Chart.default ⟨1, 1, 18, 8⟩ ⟨0, 0, 20, 10⟩).graph_area.width ≤ 19 ∧
    (Chart.layout wdLen Chart.default ⟨1, 1, 18, 8⟩ ⟨0, 0, 20, 10⟩).graph_area.y = 1 ∧
    (Chart.layout wdLen Chart.default ⟨1, 1, 18, 8⟩ ⟨0, 0, 20, 10⟩).graph_area.y +
      (Chart.layout wdLen Chart.default ⟨1, 1, 18, 8⟩ ⟨0, 0, 20, 10⟩).graph_area.height ≤ 9 :=
  c1_graph_area_contained wdLen Chart.default ⟨1, 1, 18, 8⟩ ⟨0, 0, 20, 10⟩
    (by decide) (by decide) (by decide) (by decide) (by decide) (by decide)
    (by decide) (by decide) (fun ls h => Option.noConfusion h) (by decide)

end TuiChart
